import Mathlib

/-!
Shallow embedding of `data_transfer.py`, a command-line tool that exports a
PostgreSQL table to a CSV file or imports a CSV file into a table.

Modelling choices:
* a pandas DataFrame is a list of column names plus a list of rows of cells;
* the database is a map from table names to frames, the file system a map
  from paths to optional file contents;
* a CSV file written with `index=False` is stored abstractly as the parsed
  frame (header of column names, no synthetic index column);
* Python exceptions are an inductive type classified by the dynamic type the
  `except` clauses of the script dispatch on; exceptions raised inside the
  database driver or the CSV writer are modelled by injectable fault fields
  of the state.
-/

namespace DataTransfer

/-- Scalar cell values appearing in tables and CSV files. -/
inductive Value
  | int (n : Int)
  | str (s : String)
  | null
deriving DecidableEq

/-- In-memory tabular dataset (a pandas DataFrame): named columns plus rows
of cells, the cells of each row parallel to the column list. -/
structure DataFrame where
  cols : List String
  rows : List (List Value)
deriving DecidableEq

/-- Remove from one row the cells of every column labelled `name`
(cells are parallel to the label list). -/
def dropCells (name : String) : List String → List Value → List Value
  | c :: cs, v :: vs =>
      if c = name then dropCells name cs vs else v :: dropCells name cs vs
  | _, vs => vs

/-- Embeds `df.drop(columns=['id'], errors='ignore')`, generalised over the
label: delete every column labelled `name`; absence of the label is not an
error. -/
def DataFrame.dropColumn (df : DataFrame) (name : String) : DataFrame where
  cols := df.cols.filter (fun c => c ≠ name)
  rows := df.rows.map (dropCells name df.cols)

/-- Python exceptions relevant to the script, classified by the dynamic type
the `except` clauses dispatch on.  The payload of the last three is the
exception's text; the first three carry none because the script's handlers
for them never interpolate the exception. -/
inductive PyError
  | fileNotFound
  | emptyData
  | parserError
  | integrityError (msg : String)
  | operationalError (msg : String)
  | otherError (msg : String)
deriving DecidableEq

/-- Text of the exception, as interpolated by an f-string; for the three
payload-free constructors a representative text of the library exception. -/
def PyError.text : PyError → String
  | .fileNotFound => "[Errno 2] No such file or directory"
  | .emptyData => "No columns to parse from file"
  | .parserError => "Error tokenizing data"
  | .integrityError msg => msg
  | .operationalError msg => msg
  | .otherError msg => msg

/-- Index of the `except` clause of `import_from_csv` that catches the
exception (its failure category). -/
def PyError.category : PyError → Nat
  | .fileNotFound => 0
  | .emptyData => 1
  | .parserError => 2
  | .integrityError _ => 3
  | .operationalError _ => 4
  | .otherError _ => 5

/-- Contents of a file as seen by `pd.read_csv`: an empty file (raises
EmptyDataError), bytes that do not parse as tabular CSV (ParserError), or a
parsable table. -/
inductive CsvContent
  | empty
  | unparsable
  | parsed (df : DataFrame)
deriving DecidableEq

/-- World state: the database tables, the file system, the destination
table's key generator (auto-increment), and injectable faults standing for
exceptions raised inside `DELETE`/`connect`, `to_sql`, `read_sql_table` and
`to_csv` respectively. -/
structure St where
  tables : String → DataFrame
  fs : String → Option CsvContent
  genId : Nat → Value
  deleteFault : Option PyError
  toSqlFault : Option PyError
  readSqlFault : Option PyError
  toCsvFault : Option PyError

/-- Result of `DELETE FROM t;`: every row removed, schema kept. -/
def clearTable (df : DataFrame) : DataFrame where
  cols := df.cols
  rows := []

/-- Embeds the `with engine.connect()` block of `import_from_csv`:
`connection.execute(text(f"DELETE FROM Ellipsis"))` followed by
`connection.commit()`.  A fault models an exception raised inside the
block, in which case nothing is committed and the state is unchanged. -/
def execDelete (st : St) (tableName : String) : Except PyError St :=
  match st.deleteFault with
  | some e => Except.error e
  | none => Except.ok { st with
      tables := fun n => if n = tableName then clearTable (st.tables n) else st.tables n }

/-- Embeds `pd.read_csv(csv_file_path)`: a missing path raises
FileNotFoundError, an empty file EmptyDataError, unparsable bytes
ParserError; otherwise the parsed frame is returned. -/
def readCsvFile (st : St) (path : String) : Except PyError DataFrame :=
  match st.fs path with
  | none => Except.error PyError.fileNotFound
  | some CsvContent.empty => Except.error PyError.emptyData
  | some CsvContent.unparsable => Except.error PyError.parserError
  | some (CsvContent.parsed df) => Except.ok df

/-- Value of column `target` in a frame row whose cells are parallel to
`dfCols` (INSERT matches columns by name); a column the frame lacks is
filled with NULL by the database. -/
def colValue : List String → List Value → String → Value
  | c :: cs, v :: vs, target => if c = target then v else colValue cs vs target
  | _, _, _ => Value.null

/-- One row as INSERTed by `to_sql`: the table's `id` column receives the
freshly generated key, every other table column its value from the frame
row. -/
def insertRow (tableCols dfCols : List String) (r : List Value) (fresh : Value) : List Value :=
  tableCols.map (fun c => if c = "id" then fresh else colValue dfCols r c)

/-- The rows INSERTed for the frame rows `rs`, the key generator supplying
consecutive fresh `id` values from index `i` on. -/
def insertRows (tableCols dfCols : List String) (gen : Nat → Value) : Nat → List (List Value) → List (List Value)
  | _, [] => []
  | i, r :: rs => insertRow tableCols dfCols r (gen i) :: insertRows tableCols dfCols gen (i + 1) rs

/-- Embeds `df.to_sql(table_name, engine, if_exists='append', index=False)`:
append the frame's rows to the destination table, the table's own key
mechanism producing fresh `id` values.  A fault models an exception raised
by the driver (e.g. IntegrityError). -/
def toSqlAppend (st : St) (tableName : String) (df : DataFrame) : Except PyError St :=
  match st.toSqlFault with
  | some e => Except.error e
  | none => Except.ok { st with
      tables := fun n =>
        if n = tableName then
          { cols := (st.tables n).cols
            rows := (st.tables n).rows ++ insertRows (st.tables n).cols df.cols st.genId 0 df.rows }
        else st.tables n }

/-- A log line with its level, as produced by the module logger. -/
inductive Log
  | info (msg : String)
  | error (msg : String)
deriving DecidableEq

/-- The texts of the error-level lines of a log. -/
def errMsgs (logs : List Log) : List String :=
  logs.filterMap (fun l => match l with
    | Log.error m => some m
    | Log.info _ => none)

/-- The message logged by the `except` clause of `import_from_csv` that
catches the exception, with the f-string interpolations of the source. -/
def handleImportError (csvFilePath : String) : PyError → String
  | .fileNotFound => "The file " ++ csvFilePath ++ " was not found."
  | .emptyData => "The file is empty."
  | .parserError => "The file could not be parsed."
  | .integrityError msg => "Integrity error during import: " ++ msg
  | .operationalError msg => "Database connection error: " ++ msg
  | .otherError msg => "Error importing data: " ++ msg

/-- Embeds `import_from_csv(engine, table_name, csv_file_path)`: clear the
destination table (committed), read the CSV, drop `id`, append; the first
exception raised anywhere in the `try` body is converted to exactly one
error log line by the matching `except` clause, and the function returns. -/
def importFromCsv (st : St) (tableName csvFilePath : String) : St × List Log :=
  match execDelete st tableName with
  | Except.error e => (st, [Log.error (handleImportError csvFilePath e)])
  | Except.ok st1 =>
    match readCsvFile st1 csvFilePath with
    | Except.error e =>
        (st1, [Log.info "Table cleared successfully.",
               Log.error (handleImportError csvFilePath e)])
    | Except.ok df0 =>
      match toSqlAppend st1 tableName (df0.dropColumn "id") with
      | Except.error e =>
          (st1, [Log.info "Table cleared successfully.",
                 Log.error (handleImportError csvFilePath e)])
      | Except.ok st2 =>
          (st2, [Log.info "Table cleared successfully.",
                 Log.info ("Data uploaded successfully! " ++
                   toString (df0.dropColumn "id").rows.length ++ " records imported.")])

/-- The `try` body of `export_to_csv`: `pd.read_sql_table` (full scan),
drop `id`, `df.to_csv(csv_file_path, index=False)` which overwrites the
file at the path with the frame. -/
def exportBody (st : St) (tableName csvFilePath : String) : Except PyError St :=
  match st.readSqlFault with
  | some e => Except.error e
  | none =>
    match st.toCsvFault with
    | some e => Except.error e
    | none => Except.ok { st with
        fs := fun p =>
          if p = csvFilePath then some (CsvContent.parsed ((st.tables tableName).dropColumn "id"))
          else st.fs p }

/-- Embeds `export_to_csv(engine, table_name, csv_file_path)`: the `try`
body, with any exception converted to one error log line at the boundary. -/
def exportToCsv (st : St) (tableName csvFilePath : String) : St × List Log :=
  match exportBody st tableName csvFilePath with
  | Except.error e => (st, [Log.error ("Error exporting data: " ++ PyError.text e)])
  | Except.ok st1 => (st1, [Log.info ("Data exported successfully to " ++ csvFilePath ++ ".")])

/-- Embeds `get_db_connection`: `create_engine` only builds the URL; no
connection is attempted at construction. -/
def getDbConnection (dbUser dbPassword dbHost dbPort dbName : String) : String :=
  "postgresql://" ++ dbUser ++ ":" ++ dbPassword ++ "@" ++ dbHost ++ ":" ++ dbPort ++ "/" ++ dbName

/-- Command-line arguments after successful argparse parsing: `operation`
is one of `export`/`import` (enforced by `choices`), `csvFile` is `none`
when the optional flag is absent. -/
structure Args where
  operation : String
  tableName : String
  csvFile : Option String
  dbUser : String
  dbPassword : String
  dbHost : String
  dbPort : String
  dbName : String

/-- Python truth test `not args.csv_file`: true exactly for `None` and the
empty string. -/
def pyFalsy : Option String → Bool
  | none => true
  | some s => s == ""

/-- Embeds `main()` after argument parsing: build the (lazy) engine, then
run the selected operation; returns the final state, the log, and the
process exit code. -/
def main (a : Args) (st : St) : St × List Log × Nat :=
  if a.operation = "export" then
    let r := exportToCsv st a.tableName (a.tableName ++ ".csv")
    (r.1, r.2, 0)
  else if a.operation = "import" then
    if pyFalsy a.csvFile then
      (st, [Log.error "CSV file path is required for import."], 0)
    else
      let r := importFromCsv st a.tableName (a.csvFile.getD "")
      (r.1, r.2, 0)
  else
    (st, [], 0)

/-- Recover the failure category from a logged import error message: the
first character separates the three interpolating messages, the sixth
character from the end separates the three file messages.  Used to state
that distinct categories always log distinct messages. -/
def decodeCategory (s : String) : Nat :=
  if s.data.head? = some 'I' then 3
  else if s.data.head? = some 'D' then 4
  else if s.data.head? = some 'E' then 5
  else if (s.data.reverse)[5]? = some 'f' then 0
  else if (s.data.reverse)[5]? = some 'e' then 1
  else 2

/-! ### Concrete states used by the witnesses -/

/-- The `orders(id, sku, qty)` table of the spec's scenarios. -/
def ordersTable : DataFrame where
  cols := ["id", "sku", "qty"]
  rows := [[Value.int 1, Value.str "X1", Value.int 5]]

/-- A fault-free world holding only the `orders` table and an empty file
system. -/
def baseSt : St where
  tables := fun n => if n = "orders" then ordersTable else { cols := [], rows := [] }
  fs := fun _ => none
  genId := fun i => Value.int (Int.ofNat i + 1)
  deleteFault := none
  toSqlFault := none
  readSqlFault := none
  toCsvFault := none

/-- A CSV frame with header `sku,qty` and two data rows. -/
def csvOrders : DataFrame where
  cols := ["sku", "qty"]
  rows := [[Value.str "A", Value.int 2], [Value.str "B", Value.int 3]]

/-- The fault-free world with `in.csv` present and parsable. -/
def stWithCsv : St :=
  { baseSt with fs := fun q => if q = "in.csv" then some (CsvContent.parsed csvOrders) else none }

/-- An import invocation whose `--csv_file` flag is absent. -/
def argsImport : Args where
  operation := "import"
  tableName := "orders"
  csvFile := none
  dbUser := "u"
  dbPassword := "p"
  dbHost := "localhost"
  dbPort := "5432"
  dbName := "mydb"

/-- An export invocation for the `orders` table. -/
def argsExport : Args where
  operation := "export"
  tableName := "orders"
  csvFile := none
  dbUser := "u"
  dbPassword := "p"
  dbHost := "localhost"
  dbPort := "5432"
  dbName := "mydb"

/-- The fault-free world with an empty file at every path. -/
def stEmptyFile : St := { baseSt with fs := fun _ => some CsvContent.empty }

/-- A world whose engine raises OperationalError on `read_sql_table`. -/
def stExportFault : St :=
  { baseSt with readSqlFault := some (PyError.operationalError "connection refused") }

/-! ### Lemmas about the row and column operations -/

theorem dropCells_map (name : String) (cs : List String) (f : String → Value) :
    dropCells name cs (cs.map f) = (cs.filter (fun c => c ≠ name)).map f := by
  induction cs with
  | nil => rfl
  | cons c cs ih =>
    by_cases h : c = name
    · simp [dropCells, h, List.filter_cons, ih]
    · simp [dropCells, h, List.filter_cons, ih]

theorem dropCells_length (name : String) :
    ∀ (cs : List String) (vs : List Value), vs.length = cs.length →
      (dropCells name cs vs).length = (cs.filter (fun c => c ≠ name)).length := by
  intro cs
  induction cs with
  | nil =>
    intro vs h
    cases vs with
    | nil => rfl
    | cons v vs => simp at h
  | cons c cs ih =>
    intro vs h
    cases vs with
    | nil => simp at h
    | cons v vs =>
      have h' : vs.length = cs.length := by simpa using h
      by_cases hc : c = name
      · simp [dropCells, hc, List.filter_cons, ih vs h']
      · simp [dropCells, hc, List.filter_cons, ih vs h']

theorem dropCells_not_mem (name : String) :
    ∀ (cs : List String) (vs : List Value), name ∉ cs → dropCells name cs vs = vs := by
  intro cs
  induction cs with
  | nil => intro vs _; rfl
  | cons c cs ih =>
    intro vs h
    cases vs with
    | nil => rfl
    | cons v vs =>
      have hc : ¬(c = name) := fun he => h (by simp [he])
      have hcs : name ∉ cs := fun hm => h (by simp [hm])
      simp [dropCells, hc, ih vs hcs]

theorem colValue_cons_ne (c0 c : String) (v0 : Value) (cs : List String) (vs : List Value)
    (h : c0 ≠ c) : colValue (c0 :: cs) (v0 :: vs) c = colValue cs vs c := by
  simp [colValue, h]

theorem colValue_self :
    ∀ (cs : List String) (vs : List Value), cs.Nodup → vs.length = cs.length →
      cs.map (fun c => colValue cs vs c) = vs := by
  intro cs
  induction cs with
  | nil =>
    intro vs _ h
    cases vs with
    | nil => rfl
    | cons v vs => simp at h
  | cons c0 cs ih =>
    intro vs hnd hlen
    cases vs with
    | nil => simp at hlen
    | cons v0 vs =>
      rw [List.nodup_cons] at hnd
      obtain ⟨hc0, hnd2⟩ := hnd
      have hlen' : vs.length = cs.length := by simpa using hlen
      simp only [List.map_cons]
      congr 1
      · simp [colValue]
      · calc cs.map (fun c => colValue (c0 :: cs) (v0 :: vs) c)
            = cs.map (fun c => colValue cs vs c) :=
              List.map_congr_left (fun c hc =>
                colValue_cons_ne c0 c v0 cs vs (fun he => hc0 (he ▸ hc)))
          _ = vs := ih vs hnd2 hlen'

theorem insertRow_drop (tableCols dfCols : List String) (r : List Value) (fresh : Value) :
    dropCells "id" tableCols (insertRow tableCols dfCols r fresh) =
      (tableCols.filter (fun c => c ≠ "id")).map (fun c => colValue dfCols r c) := by
  unfold insertRow
  rw [dropCells_map]
  exact List.map_congr_left (fun c hc => by
    have h : c ≠ "id" := by simpa using (List.mem_filter.mp hc).2
    simp [h])

theorem insertRows_proj (tableCols dfCols : List String) (gen : Nat → Value)
    (hcols : tableCols.filter (fun c => c ≠ "id") = dfCols) (hnd : dfCols.Nodup) :
    ∀ (i : Nat) (rs : List (List Value)), (∀ r ∈ rs, r.length = dfCols.length) →
      (insertRows tableCols dfCols gen i rs).map (dropCells "id" tableCols) = rs := by
  intro i rs
  induction rs generalizing i with
  | nil => intro _; rfl
  | cons r rs ih =>
    intro h
    simp only [insertRows, List.map_cons]
    congr 1
    · rw [insertRow_drop, hcols]
      exact colValue_self dfCols r hnd (h r (by simp))
    · exact ih (i + 1) (fun r' hr' => h r' (by simp [hr']))

theorem insertRows_length (tableCols dfCols : List String) (gen : Nat → Value) :
    ∀ (i : Nat) (rs : List (List Value)),
      (insertRows tableCols dfCols gen i rs).length = rs.length := by
  intro i rs
  induction rs generalizing i with
  | nil => rfl
  | cons r rs ih => simp [insertRows, ih]

theorem filter_ne_idem (n : String) (l : List String) :
    (l.filter (fun c => c ≠ n)).filter (fun c => c ≠ n) = l.filter (fun c => c ≠ n) :=
  List.filter_eq_self.mpr (fun _ hc => (List.mem_filter.mp hc).2)

theorem not_mem_filter_ne (n : String) (l : List String) :
    n ∉ l.filter (fun c => c ≠ n) := by
  intro h
  have h2 := (List.mem_filter.mp h).2
  simp at h2

theorem filter_ne_of_not_mem (n : String) (l : List String) (h : n ∉ l) :
    l.filter (fun c => c ≠ n) = l :=
  List.filter_eq_self.mpr (fun c hc => by
    simp only [ne_eq, decide_not, Bool.not_eq_eq_eq_not, Bool.not_true, decide_eq_false_iff_not]
    exact fun he => h (he ▸ hc))

theorem dropColumn_idem (df : DataFrame) (n : String) :
    (df.dropColumn n).dropColumn n = df.dropColumn n := by
  unfold DataFrame.dropColumn
  congr 1
  · exact filter_ne_idem n df.cols
  · rw [List.map_map]
    exact List.map_congr_left (fun r _ => by
      simp only [Function.comp]
      exact dropCells_not_mem n _ _ (not_mem_filter_ne n df.cols))

/-- Core lemma: a fault-free import of a parsable, well-formed CSV whose
non-id columns match the destination's non-id columns replaces the table's
contents with exactly the CSV's rows (modulo the regenerated `id` column)
and logs the clear plus the success line. -/
theorem import_success_core (st : St) (t p : String) (df : DataFrame)
    (hdel : st.deleteFault = none) (happ : st.toSqlFault = none)
    (hfs : st.fs p = some (CsvContent.parsed df))
    (hnd : df.cols.Nodup)
    (hlen : ∀ r ∈ df.rows, r.length = df.cols.length)
    (hschema : (st.tables t).cols.filter (fun c => c ≠ "id") =
      df.cols.filter (fun c => c ≠ "id")) :
    ((importFromCsv st t p).1.tables t).dropColumn "id" = df.dropColumn "id" ∧
    ((importFromCsv st t p).1.tables t).rows.length = df.rows.length ∧
    (importFromCsv st t p).2 = [Log.info "Table cleared successfully.",
      Log.info ("Data uploaded successfully! " ++
        toString (df.dropColumn "id").rows.length ++ " records imported.")] := by
  have hdcols : (df.dropColumn "id").cols = df.cols.filter (fun c => c ≠ "id") := rfl
  have hdrows : (df.dropColumn "id").rows = df.rows.map (dropCells "id" df.cols) := rfl
  have hproj : (insertRows (st.tables t).cols (df.dropColumn "id").cols st.genId 0
      (df.dropColumn "id").rows).map (dropCells "id" (st.tables t).cols)
      = (df.dropColumn "id").rows := by
    apply insertRows_proj
    · rw [hdcols]; exact hschema
    · rw [hdcols]; exact hnd.filter _
    · intro r' hr'
      rw [hdrows] at hr'
      obtain ⟨r, hr, hr'eq⟩ := List.mem_map.mp hr'
      rw [← hr'eq, hdcols]
      exact dropCells_length "id" df.cols r (hlen r hr)
  have htab : (importFromCsv st t p).1.tables t =
      { cols := (st.tables t).cols
        rows := insertRows (st.tables t).cols (df.dropColumn "id").cols st.genId 0
          (df.dropColumn "id").rows } := by
    simp [importFromCsv, execDelete, hdel, readCsvFile, toSqlAppend, happ, hfs, clearTable]
  have hlog : (importFromCsv st t p).2 = [Log.info "Table cleared successfully.",
      Log.info ("Data uploaded successfully! " ++
        toString (df.dropColumn "id").rows.length ++ " records imported.")] := by
    simp [importFromCsv, execDelete, hdel, readCsvFile, toSqlAppend, happ, hfs]
  refine ⟨?_, ?_, hlog⟩
  · rw [htab]
    simp only [DataFrame.dropColumn, DataFrame.mk.injEq]
    exact ⟨hschema, hproj.trans hdrows⟩
  · rw [htab]
    show (insertRows (st.tables t).cols (df.dropColumn "id").cols st.genId 0
      (df.dropColumn "id").rows).length = df.rows.length
    rw [insertRows_length, hdrows]
    exact List.length_map df.rows _

/-! ### Claims -/

/-- Claim C2: after a successful import of CSV `df` into table `t`, the
table contains exactly the rows of the CSV (with any `id` column dropped)
and none of the rows that were there before: its non-id data equals the
CSV's non-id data and its row count equals the CSV's row count — a full
replace, never a merge or upsert.  The hypotheses are exactly the
conditions for success: no driver fault, a parsable file, and (as the spec
requires of `to_sql` append) a well-formed CSV whose non-id columns match
the destination's. -/
theorem claim_C2 (st : St) (t p : String) (df : DataFrame)
    (hdel : st.deleteFault = none) (happ : st.toSqlFault = none)
    (hfs : st.fs p = some (CsvContent.parsed df))
    (hnd : df.cols.Nodup)
    (hlen : ∀ r ∈ df.rows, r.length = df.cols.length)
    (hschema : (st.tables t).cols.filter (fun c => c ≠ "id") =
      df.cols.filter (fun c => c ≠ "id")) :
    ((importFromCsv st t p).1.tables t).dropColumn "id" = df.dropColumn "id" ∧
    ((importFromCsv st t p).1.tables t).rows.length = df.rows.length :=
  ⟨(import_success_core st t p df hdel happ hfs hnd hlen hschema).1,
   (import_success_core st t p df hdel happ hfs hnd hlen hschema).2.1⟩

/-- Witness for C2 at the concrete `orders` scenario. -/
theorem claim_C2_witness :
    ((importFromCsv stWithCsv "orders" "in.csv").1.tables "orders").dropColumn "id" =
      csvOrders.dropColumn "id" ∧
    ((importFromCsv stWithCsv "orders" "in.csv").1.tables "orders").rows.length =
      csvOrders.rows.length :=
  claim_C2 stWithCsv "orders" "in.csv" csvOrders rfl rfl (by decide) (by decide)
    (by decide) (by decide)

/-- Claim C3: exporting table `t` to file `p` and then importing `p` back
into `t` (no concurrent writers, fault-free run) leaves the table's non-id
column data equal to its state before the round trip; `id` values may have
been regenerated. -/
theorem claim_C3 (st : St) (t p : String)
    (h1 : st.readSqlFault = none) (h2 : st.toCsvFault = none)
    (h3 : st.deleteFault = none) (h4 : st.toSqlFault = none)
    (hnd : (st.tables t).cols.Nodup)
    (hlen : ∀ r ∈ (st.tables t).rows, r.length = (st.tables t).cols.length) :
    ((importFromCsv (exportToCsv st t p).1 t p).1.tables t).dropColumn "id" =
      (st.tables t).dropColumn "id" := by
  have hst1 : (exportToCsv st t p).1 = { st with fs := fun q =>
      (if q = p then some (CsvContent.parsed ((st.tables t).dropColumn "id")) else st.fs q) } := by
    simp [exportToCsv, exportBody, h1, h2]
  rw [hst1]
  have key := import_success_core
    { st with fs := fun q =>
        (if q = p then some (CsvContent.parsed ((st.tables t).dropColumn "id")) else st.fs q) }
    t p ((st.tables t).dropColumn "id") h3 h4 (by simp) (hnd.filter _)
    (fun r' hr' => by
      obtain ⟨r, hr, hreq⟩ := List.mem_map.mp hr'
      rw [← hreq]
      exact dropCells_length "id" (st.tables t).cols r (hlen r hr))
    ((filter_ne_idem "id" (st.tables t).cols).symm)
  exact key.1.trans (dropColumn_idem (st.tables t) "id")

/-- Witness for C3 at the concrete `orders` table. -/
theorem claim_C3_witness :
    ((importFromCsv (exportToCsv baseSt "orders" "orders.csv").1 "orders" "orders.csv").1.tables
        "orders").dropColumn "id" = (baseSt.tables "orders").dropColumn "id" :=
  claim_C3 baseSt "orders" "orders.csv" rfl rfl rfl rfl (by decide) (by decide)

/-- Claim C5: an import invocation whose `--csv_file` flag is absent logs
the missing-path error and aborts with the whole state (database and file
system) untouched and exit code 0; the lazy engine construction performs no
database access. -/
theorem claim_C5 (a : Args) (st : St) (hop : a.operation = "import")
    (hcsv : a.csvFile = none) :
    main a st = (st, [Log.error "CSV file path is required for import."], 0) := by
  simp [main, hop, hcsv, pyFalsy]

/-- Witness for C5. -/
theorem claim_C5_witness :
    main argsImport baseSt =
      (baseSt, [Log.error "CSV file path is required for import."], 0) :=
  claim_C5 argsImport baseSt rfl rfl

/-- Claim C9: export never mutates the database — whatever the table, path
and faults, the tables map after `export_to_csv` is the one before. -/
theorem claim_C9 (st : St) (t p : String) : (exportToCsv st t p).1.tables = st.tables := by
  unfold exportToCsv exportBody
  cases h1 : st.readSqlFault with
  | some e => rfl
  | none =>
    cases h2 : st.toCsvFault with
    | some e => rfl
    | none => rfl

/-- Claim C10: supplying `--csv_file` as the empty string behaves exactly
like omitting the flag, because Python's truth test treats both as falsy. -/
theorem claim_C10 (a : Args) (st : St) :
    main { a with csvFile := some "" } st = main { a with csvFile := none } st := by
  by_cases h1 : a.operation = "export"
  · simp [main, h1]
  · by_cases h2 : a.operation = "import"
    · simp [main, h1, h2, pyFalsy]
    · simp [main, h1, h2]

/-- Each failure category's log message decodes back to its category: the
six messages are pairwise distinct, whatever the path and exception texts. -/
theorem decode_handleImportError (p : String) (e : PyError) :
    decodeCategory (handleImportError p e) = e.category := by
  cases e with
  | fileNotFound =>
    show decodeCategory ("The file " ++ p ++ " was not found.") = 0
    have hdata : ("The file " ++ p ++ " was not found.").data
        = ("The file ".data ++ p.data) ++ " was not found.".data := rfl
    have hhead : ("The file " ++ p ++ " was not found.").data.head? = some 'T' := rfl
    have hrev : (("The file " ++ p ++ " was not found.").data.reverse)[5]? = some 'f' := by
      rw [hdata, List.reverse_append, List.getElem?_append,
        if_pos (by decide : (5 : Nat) < " was not found.".data.reverse.length)]
      decide
    unfold decodeCategory
    rw [hhead, hrev]
    decide
  | emptyData =>
    show decodeCategory "The file is empty." = 1
    decide
  | parserError =>
    show decodeCategory "The file could not be parsed." = 2
    decide
  | integrityError m =>
    show decodeCategory ("Integrity error during import: " ++ m) = 3
    have hhead : ("Integrity error during import: " ++ m).data.head? = some 'I' := rfl
    unfold decodeCategory
    rw [hhead]
    simp [decide_eq_true_eq]
  | operationalError m =>
    show decodeCategory ("Database connection error: " ++ m) = 4
    have hhead : ("Database connection error: " ++ m).data.head? = some 'D' := rfl
    unfold decodeCategory
    rw [hhead]
    simp [decide_eq_true_eq]
  | otherError m =>
    show decodeCategory ("Error importing data: " ++ m) = 5
    have hhead : ("Error importing data: " ++ m).data.head? = some 'E' := rfl
    unfold decodeCategory
    rw [hhead]
    simp [decide_eq_true_eq]

/-- Every run of import produces one of three log shapes: an error line
alone (the DELETE itself failed), the clear line followed by one error
line, or the clear line followed by the success line. -/
theorem importFromCsv_cases (st : St) (t p : String) :
    (∃ e : PyError, (importFromCsv st t p).2 = [Log.error (handleImportError p e)]) ∨
    (∃ e : PyError, (importFromCsv st t p).2 =
      [Log.info "Table cleared successfully.", Log.error (handleImportError p e)]) ∨
    (∃ k : Nat, (importFromCsv st t p).2 =
      [Log.info "Table cleared successfully.",
       Log.info ("Data uploaded successfully! " ++ toString k ++ " records imported.")]) := by
  cases hd : st.deleteFault with
  | some e => exact Or.inl ⟨e, by simp [importFromCsv, execDelete, hd]⟩
  | none =>
    cases hf : st.fs p with
    | none =>
      exact Or.inr (Or.inl ⟨PyError.fileNotFound,
        by simp [importFromCsv, execDelete, hd, readCsvFile, hf]⟩)
    | some c =>
      cases c with
      | empty =>
        exact Or.inr (Or.inl ⟨PyError.emptyData,
          by simp [importFromCsv, execDelete, hd, readCsvFile, hf]⟩)
      | unparsable =>
        exact Or.inr (Or.inl ⟨PyError.parserError,
          by simp [importFromCsv, execDelete, hd, readCsvFile, hf]⟩)
      | parsed df =>
        cases ht : st.toSqlFault with
        | some e =>
          exact Or.inr (Or.inl ⟨e,
            by simp [importFromCsv, execDelete, hd, readCsvFile, hf, toSqlAppend, ht]⟩)
        | none =>
          exact Or.inr (Or.inr ⟨(df.dropColumn "id").rows.length,
            by simp [importFromCsv, execDelete, hd, readCsvFile, hf, toSqlAppend, ht]⟩)

/-- Claim C6: a failing import logs exactly one error line, always as its
last log line (terminal, no retry), the line is the message of the except
clause that caught the exception, and distinct failure categories always
produce distinct messages, so exactly one of the six categories is
reported. -/
theorem claim_C6 (st : St) (t p : String) :
    (errMsgs (importFromCsv st t p).2).length ≤ 1 ∧
    (∀ m ∈ errMsgs (importFromCsv st t p).2,
      (∃ e : PyError, m = handleImportError p e) ∧
      (importFromCsv st t p).2.getLast? = some (Log.error m)) ∧
    (∀ e1 e2 : PyError, handleImportError p e1 = handleImportError p e2 →
      PyError.category e1 = PyError.category e2) := by
  refine ⟨?_, ?_, ?_⟩
  · rcases importFromCsv_cases st t p with ⟨e, he⟩ | ⟨e, he⟩ | ⟨k, hk⟩
    · rw [he]; simp [errMsgs]
    · rw [he]; simp [errMsgs]
    · rw [hk]; simp [errMsgs]
  · intro m hm
    rcases importFromCsv_cases st t p with ⟨e, he⟩ | ⟨e, he⟩ | ⟨k, hk⟩
    · rw [he] at hm ⊢
      simp [errMsgs] at hm
      subst hm
      exact ⟨⟨e, rfl⟩, by simp⟩
    · rw [he] at hm ⊢
      simp [errMsgs] at hm
      subst hm
      exact ⟨⟨e, rfl⟩, by simp⟩
    · rw [hk] at hm
      simp [errMsgs] at hm
  · intro e1 e2 h
    have h2 := congrArg decodeCategory h
    rwa [decode_handleImportError, decode_handleImportError] at h2

/-- Witness for C6: an empty source file logs exactly the empty-file
message, as the final log line. -/
theorem claim_C6_witness :
    (∃ e : PyError, "The file is empty." = handleImportError "data.csv" e) ∧
    (importFromCsv stEmptyFile "orders" "data.csv").2.getLast? =
      some (Log.error "The file is empty.") :=
  (claim_C6 stEmptyFile "orders" "data.csv").2.1 "The file is empty." (by decide)

/-- Claim C7: the process exit code is 0 for every invocation, and every
exception raised inside export or import is converted at the operation's
boundary into a log message: a failing export returns normally with the
generic export error line, and every error line a run of import can log is
the message of one of its except clauses. -/
theorem claim_C7 :
    (∀ (a : Args) (st : St), (main a st).2.2 = 0) ∧
    (∀ (st : St) (t p : String) (e : PyError), exportBody st t p = Except.error e →
      exportToCsv st t p = (st, [Log.error ("Error exporting data: " ++ PyError.text e)])) ∧
    (∀ (st : St) (t p : String), ∀ m ∈ errMsgs (importFromCsv st t p).2,
      ∃ e : PyError, m = handleImportError p e) := by
  refine ⟨?_, ?_, ?_⟩
  · intro a st
    unfold main
    by_cases h1 : a.operation = "export"
    · simp [h1]
    · by_cases h2 : a.operation = "import"
      · cases hf : pyFalsy a.csvFile <;> simp [h1, h2, hf]
      · simp [h1, h2]
  · intro st t p e h
    unfold exportToCsv
    rw [h]
  · intro st t p m hm
    rcases importFromCsv_cases st t p with ⟨e, he⟩ | ⟨e, he⟩ | ⟨k, hk⟩
    · rw [he] at hm
      simp [errMsgs] at hm
      exact ⟨e, hm⟩
    · rw [he] at hm
      simp [errMsgs] at hm
      exact ⟨e, hm⟩
    · rw [hk] at hm
      simp [errMsgs] at hm

/-- Witness for C7: a concrete failing export returns normally with the
converted log line. -/
theorem claim_C7_witness :
    exportToCsv stExportFault "orders" "orders.csv" =
      (stExportFault, [Log.error ("Error exporting data: " ++
        PyError.text (PyError.operationalError "connection refused"))]) :=
  claim_C7.2.1 stExportFault "orders" "orders.csv"
    (PyError.operationalError "connection refused") rfl

/-- Claim C4: a fault-free export invocation writes the CSV at
`<table_name>.csv`, containing (as header and rows, with no synthetic index
column) exactly the table's columns with any column literally named `id`
removed; when the table has no `id` column the output columns are the
table's columns unchanged and in order, and the run still succeeds with the
success log line. -/
theorem claim_C4 (a : Args) (st : St) (hop : a.operation = "export")
    (h1 : st.readSqlFault = none) (h2 : st.toCsvFault = none) :
    (main a st).1.fs (a.tableName ++ ".csv") =
      some (CsvContent.parsed ((st.tables a.tableName).dropColumn "id")) ∧
    ((st.tables a.tableName).dropColumn "id").cols =
      (st.tables a.tableName).cols.filter (fun c => c ≠ "id") ∧
    ("id" ∉ (st.tables a.tableName).cols →
      ((st.tables a.tableName).dropColumn "id").cols = (st.tables a.tableName).cols) ∧
    (main a st).2.1 =
      [Log.info ("Data exported successfully to " ++ (a.tableName ++ ".csv") ++ ".")] := by
  have hmain : main a st = ((exportToCsv st a.tableName (a.tableName ++ ".csv")).1,
      (exportToCsv st a.tableName (a.tableName ++ ".csv")).2, 0) := by
    simp [main, hop]
  have hexport : exportToCsv st a.tableName (a.tableName ++ ".csv") =
      ({ st with fs := fun q => (if q = a.tableName ++ ".csv" then
          some (CsvContent.parsed ((st.tables a.tableName).dropColumn "id")) else st.fs q) },
       [Log.info ("Data exported successfully to " ++ (a.tableName ++ ".csv") ++ ".")]) := by
    simp [exportToCsv, exportBody, h1, h2]
  refine ⟨?_, rfl, ?_, ?_⟩
  · rw [hmain, hexport]
    simp
  · intro hid
    show (st.tables a.tableName).cols.filter (fun c => c ≠ "id") = (st.tables a.tableName).cols
    exact filter_ne_of_not_mem _ _ hid
  · rw [hmain, hexport]

/-- Witness for C4 at the `orders` scenario. -/
theorem claim_C4_witness :
    (main argsExport baseSt).1.fs (argsExport.tableName ++ ".csv") =
      some (CsvContent.parsed ((baseSt.tables argsExport.tableName).dropColumn "id")) ∧
    ((baseSt.tables argsExport.tableName).dropColumn "id").cols =
      (baseSt.tables argsExport.tableName).cols.filter (fun c => c ≠ "id") ∧
    ("id" ∉ (baseSt.tables argsExport.tableName).cols →
      ((baseSt.tables argsExport.tableName).dropColumn "id").cols =
        (baseSt.tables argsExport.tableName).cols) ∧
    (main argsExport baseSt).2.1 =
      [Log.info ("Data exported successfully to " ++ (argsExport.tableName ++ ".csv") ++ ".")] :=
  claim_C4 argsExport baseSt rfl rfl rfl

/-- Counterexample to C1 as stated: with table `orders` non-empty and
`missing.csv` absent, the import logs the file-not-found message, yet the
table is modified — its row was deleted by the DELETE that runs before the
file is opened. -/
theorem claim_C1_counterexample :
    baseSt.fs "missing.csv" = none ∧
    Log.error "The file missing.csv was not found." ∈
      (importFromCsv baseSt "orders" "missing.csv").2 ∧
    ((importFromCsv baseSt "orders" "missing.csv").1.tables "orders").rows ≠
      (baseSt.tables "orders").rows :=
  ⟨rfl, by decide, by decide⟩

/-- Claim C1 as amended: when the CSV file does not exist (and the DELETE
itself raises nothing), the import logs the file-not-found message, but the
destination table has already been cleared by the committed DELETE — it is
left empty, not unmodified. -/
theorem claim_C1 (st : St) (t p : String) (hdel : st.deleteFault = none)
    (hfs : st.fs p = none) :
    (importFromCsv st t p).2 = [Log.info "Table cleared successfully.",
      Log.error ("The file " ++ p ++ " was not found.")] ∧
    (importFromCsv st t p).1.tables t = clearTable (st.tables t) := by
  constructor
  · simp [importFromCsv, execDelete, hdel, readCsvFile, hfs, handleImportError]
  · simp [importFromCsv, execDelete, hdel, readCsvFile, hfs]

/-- Witness for the amended C1. -/
theorem claim_C1_witness :
    (importFromCsv baseSt "orders" "missing.csv").2 =
      [Log.info "Table cleared successfully.",
       Log.error ("The file " ++ "missing.csv" ++ " was not found.")] ∧
    (importFromCsv baseSt "orders" "missing.csv").1.tables "orders" =
      clearTable (baseSt.tables "orders") :=
  claim_C1 baseSt "orders" "missing.csv" rfl rfl

/-- Claim C8: the DELETE is executed and committed before the CSV file is
opened, so when the read fails (missing, empty or unparsable file) after a
successful DELETE, the destination table is left empty — cleared, not
unchanged — and the run ends with an error line. -/
theorem claim_C8 (st : St) (t p : String) (hdel : st.deleteFault = none)
    (hfail : st.fs p = none ∨ st.fs p = some CsvContent.empty ∨
      st.fs p = some CsvContent.unparsable) :
    (importFromCsv st t p).1.tables t = clearTable (st.tables t) ∧
    ((importFromCsv st t p).1.tables t).rows = [] ∧
    (∃ m, (importFromCsv st t p).2.getLast? = some (Log.error m)) := by
  rcases hfail with h | h | h
  · exact ⟨by simp [importFromCsv, execDelete, hdel, readCsvFile, h],
      by simp [importFromCsv, execDelete, hdel, readCsvFile, h, clearTable],
      ⟨handleImportError p PyError.fileNotFound,
        by simp [importFromCsv, execDelete, hdel, readCsvFile, h]⟩⟩
  · exact ⟨by simp [importFromCsv, execDelete, hdel, readCsvFile, h],
      by simp [importFromCsv, execDelete, hdel, readCsvFile, h, clearTable],
      ⟨handleImportError p PyError.emptyData,
        by simp [importFromCsv, execDelete, hdel, readCsvFile, h]⟩⟩
  · exact ⟨by simp [importFromCsv, execDelete, hdel, readCsvFile, h],
      by simp [importFromCsv, execDelete, hdel, readCsvFile, h, clearTable],
      ⟨handleImportError p PyError.parserError,
        by simp [importFromCsv, execDelete, hdel, readCsvFile, h]⟩⟩

/-- Witness for C8: an empty file after a successful DELETE leaves the
table cleared. -/
theorem claim_C8_witness :
    (importFromCsv stEmptyFile "orders" "e.csv").1.tables "orders" =
      clearTable (stEmptyFile.tables "orders") ∧
    ((importFromCsv stEmptyFile "orders" "e.csv").1.tables "orders").rows = [] ∧
    (∃ m, (importFromCsv stEmptyFile "orders" "e.csv").2.getLast? =
      some (Log.error m)) :=
  claim_C8 stEmptyFile "orders" "e.csv" rfl (Or.inr (Or.inl rfl))

end DataTransfer
